import Mathlib

/-!
Verification of the TRACE dashboard's client-side streaming/state logic.

Shallow embedding of:
* the Dashboard state handlers of `client/src/components/Dashboard.jsx`
  (rolling telemetry/active-user buffers, issue insertion, issue resolution);
* `handleAIRemediation` / `simulateAgentPipeline` of
  `client/src/components/IssueCommandCenter.jsx`;
* the mock-data generator (`generateMockIssue`) and the two streaming
  services (`WebSocketService`, `MockWebSocketService`) of the client's
  services layer.

JS numbers that only flow through buffers are abstracted by type variables;
`Date.now()` / ISO timestamps are passed in as parameters where the produced
value depends on them.  A JS `Set` of strings is modelled by a `List String`
used only through membership.
-/

namespace Trace

/-- One entry of an issue's `agentLogs` array (mockData.js). -/
structure AgentLog where
  timestamp : String
  agent : String
  message : String
deriving DecidableEq

/-- The issue record produced by `generateMockIssue` in mockData.js and
consumed by the Dashboard's issue handler. -/
structure Issue where
  id : String
  title : String
  severity : String
  description : String
  affectedTowers : List String
  impactScore : String
  status : String
  agentTrace : List String
  activeAgent : String
  suggestedAction : String
  detailedAnalysis : String
  remediationSteps : List String
  agentLogs : List AgentLog
deriving DecidableEq

/-! ### Rolling buffers (Dashboard.jsx telemetry / activeUsers handlers) -/

/-- JS `arr.slice(-n)` for `n > 0`: the last `min n arr.length` elements. -/
def sliceLast (l : List α) (n : Nat) : List α := l.drop (l.length - n)

/-- Dashboard.jsx: `setTelemetryData (prev => [...prev.slice (-100), data])`. -/
def pushTelemetry (prev : List α) (data : α) : List α :=
  sliceLast prev 100 ++ [data]

/-- Dashboard.jsx: `setActiveUsers (prev => [...prev.slice (-60), data])`. -/
def pushActiveUsers (prev : List α) (data : α) : List α :=
  sliceLast prev 60 ++ [data]

/-! ### Issue lifecycle tracker (Dashboard.jsx issue handler / onIssueResolved) -/

/-- The issue-related slice of the Dashboard component state:
`issues` (active list) and `resolvedIssueIds` (a JS `Set`, modelled by a
list used through membership; `resolvedIssueIdsRef` is kept in sync with it
by an effect, so the handler reads this same value). -/
structure IssueTrackerState where
  issues : List Issue
  resolvedIssueIds : List String
deriving DecidableEq

/-- `new Set ([...prev, issueId])`: membership-preserving insertion. -/
def addResolvedId (prev : List String) (issueId : String) : List String :=
  if issueId ∈ prev then prev else prev ++ [issueId]

/-- Dashboard.jsx `ws.on ('issue', ...)` body: drop the event when its id is
in the resolved set (read through `resolvedIssueIdsRef.current`) or already
present in the active list; otherwise prepend it. -/
def insertIssue (resolvedIds : List String) (prev : List Issue) (data : Issue) :
    List Issue :=
  if data.id ∈ resolvedIds then prev
  else if prev.any (fun i => i.id == data.id) then prev
  else data :: prev

/-- Dashboard.jsx `onIssueResolved` callback: add the id to the resolved set
and filter it out of the active list in the same logical update. -/
def onIssueResolved (s : IssueTrackerState) (issueId : String) : IssueTrackerState :=
  { issues := s.issues.filter (fun i => !(i.id == issueId)),
    resolvedIssueIds := addResolvedId s.resolvedIssueIds issueId }

/-- The events that mutate the issue tracker. -/
inductive DashEvent where
  | issue (data : Issue)
  | resolve (issueId : String)
deriving DecidableEq

/-- One Dashboard event-loop step on the issue tracker state. -/
def dashStep (s : IssueTrackerState) : DashEvent → IssueTrackerState
  | .issue data => { s with issues := insertIssue s.resolvedIssueIds s.issues data }
  | .resolve issueId => onIssueResolved s issueId

/-- A sequence of Dashboard events applied in order. -/
def dashRun (s : IssueTrackerState) (evs : List DashEvent) : IssueTrackerState :=
  evs.foldl dashStep s

/-- The invariant of claim C1 for a fixed id: the id is in the resolved set
and no active issue carries it. -/
def resolvedInv (issueId : String) (s : IssueTrackerState) : Prop :=
  issueId ∈ s.resolvedIssueIds ∧ ∀ i ∈ s.issues, i.id ≠ issueId

/-! ### Mock data generator (mockData.js) -/

/-- mockData.js: `const MAX_MOCK_ISSUES = 5`. -/
def MAX_MOCK_ISSUES : Nat := 5

/-- mockData.js: the `severities` array inside `generateMockIssue`. -/
def severities : List String := ["critical", "high", "medium", "low"]

/-- mockData.js: the `titles` array inside `generateMockIssue`. -/
def issueTitles : List String :=
  ["High Congestion Detected", "TRX Utilization Exceeded", "Power Anomaly",
   "Network Latency Spike", "Resource Exhaustion"]

/-- mockData.js: the `agents` array inside `generateMockIssue`, which is also
IssueCommandCenter.jsx's `AGENT_PIPELINE`. -/
def agentNames : List String :=
  ["Monitoring", "Prediction", "Decision xApp", "Action", "Learning"]

/-- mockData.js `generateMockIssue`, with the module-level `issueCounter`
made an explicit argument (result, updated counter).  `now` stands for the
ISO timestamp `new Date ().toISOString ()` used in the log entries. -/
def generateMockIssue (now : String) (issueCounter : Nat) : Option Issue × Nat :=
  if MAX_MOCK_ISSUES ≤ issueCounter then (none, issueCounter)
  else
    let issueIndex := issueCounter + 1
    (some
      { id := "issue-mock-" ++ toString issueIndex
        title := issueTitles.getD ((issueIndex - 1) % issueTitles.length) ""
        severity := severities.getD ((issueIndex - 1) % severities.length) ""
        description := "Automated detection identified an anomaly requiring attention."
        affectedTowers := ["Tower-" ++ toString (issueIndex % 10 + 1)]
        impactScore := toString (50 + (issueIndex * 7) % 50) ++ "%"
        status := "Active"
        agentTrace := agentNames
        activeAgent := agentNames.getD ((issueIndex - 1) % agentNames.length) ""
        suggestedAction := "restart_agent"
        detailedAnalysis := "System metrics indicate elevated resource usage patterns."
        remediationSteps := ["Identify root cause from telemetry data",
          "Execute automated remediation", "Verify system stability",
          "Update learning model"]
        agentLogs := [⟨now, "Monitoring", "Anomaly detected"⟩,
          ⟨now, "Prediction", "Analyzing trends"⟩,
          ⟨now, "Decision xApp", "Recommending action"⟩] },
      issueIndex)

/-- The value of the module-level `issueCounter` after `k` calls of
`generateMockIssue`, starting from its initial value 0. -/
def runMockIssueCalls (now : String) : Nat → Nat
  | 0 => 0
  | k + 1 => (generateMockIssue now (runMockIssueCalls now k)).2

/-- The result of the `i`-th call of `generateMockIssue` (1-based), starting
from a fresh module (counter 0). -/
def nthMockIssueCall (now : String) (i : Nat) : Option Issue :=
  (generateMockIssue now (runMockIssueCalls now (i - 1))).1

/-! ### Streaming client connection/fallback (websocket.js `WebSocketService`) -/

/-- The connection-relevant state of the `WebSocketService` singleton:
whether the live socket is connected, the `useMockData` flag, how many mock
interval timers are live (`mockInterval`: 0 = `null`), and how often the
caller's `onConnect` callback has been invoked. -/
structure WsState where
  connected : Bool
  useMockData : Bool
  mockStreams : Nat
  onConnectCalls : Nat
deriving DecidableEq

/-- The state right after `new WebSocketService ()` and `connect (onConnect)`
is issued, before any socket event has fired. -/
def wsInit : WsState :=
  { connected := false, useMockData := false, mockStreams := 0, onConnectCalls := 0 }

/-- websocket.js `startMockDataStream`: `if (this.mockInterval) return;`
then one `setInterval` timer is installed. -/
def startMockDataStream (s : WsState) : WsState :=
  if s.mockStreams ≠ 0 then s else { s with mockStreams := 1 }

/-- The socket.io events `WebSocketService.connect` installs handlers for. -/
inductive WsEvent where
  | connectOk
  | disconnected
  | connectError
deriving DecidableEq

/-- The three connection handlers of `WebSocketService.connect`:
`connect` clears `useMockData` and the mock interval and calls `onConnect`;
`disconnect` starts the mock stream; `connect_error` sets `useMockData`,
starts the mock stream and still calls `onConnect`. -/
def wsStep (s : WsState) : WsEvent → WsState
  | .connectOk =>
      { s with
        connected := true
        useMockData := false
        mockStreams := 0
        onConnectCalls := s.onConnectCalls + 1 }
  | .disconnected =>
      startMockDataStream { s with connected := false }
  | .connectError =>
      let s1 := startMockDataStream { s with connected := false, useMockData := true }
      { s1 with onConnectCalls := s1.onConnectCalls + 1 }

/-! ### Issue emission on the two synthetic streams -/

/-- Payload delivered on the `issue` channel: `none` models a JS `null`
argument handed to the subscriber callbacks. -/
abbrev IssuePayload := Option Issue

/-- One firing of the issue branch of `WebSocketService.startMockDataStream`
(the `Math.random () > 0.9` gate taken): the generator result is emitted to
the `issue` listeners only when it is non-null.  Result: the emission (if
any) and the updated counter. -/
def wsIssueTick (now : String) (issueCounter : Nat) :
    Option IssuePayload × Nat :=
  let r := generateMockIssue now issueCounter
  match r.1 with
  | some iss => (some (some iss), r.2)
  | none => (none, r.2)

/-- One firing of the issue interval of `MockWebSocketService.startMockStreams`
(the `Math.random () > 0.7` gate taken): `this.emit ("issue",
generateMockIssue ())` hands the generator result to every subscriber
unchecked, null included. -/
def mockServiceIssueTick (now : String) (issueCounter : Nat) :
    Option IssuePayload × Nat :=
  let r := generateMockIssue now issueCounter
  (some r.1, r.2)

/-! ### Remediation pipeline (IssueCommandCenter.jsx `handleAIRemediation`) -/

/-- A fetch of `/remediate` either resolves with an HTTP response (whose
body may fail to parse as JSON: `body = none`) or rejects with a network
error. -/
structure HttpResponse where
  ok : Bool
  status : Nat
deriving DecidableEq

/-- The JSON fields of the `/remediate` response body that
`handleAIRemediation` reads. -/
structure RemediationBody where
  agent_response : Option String
  response : Option String
  message : Option String
  source : Option String
  action : Option String
deriving DecidableEq

/-- Result of `await fetch (API_BASE_URL + "/remediate", ...)`. -/
inductive FetchOutcome where
  | response (resp : HttpResponse) (body : Option RemediationBody)
  | networkError (message : String)
deriving DecidableEq

/-- Kind of a chat message appended by `handleAIRemediation`. -/
inductive ChatKind where
  | successMsg
  | errorMsg
deriving DecidableEq

/-- Observable events of one `handleAIRemediation` run, in program order. -/
inductive RemEvent where
  | stageStart (name : String)
  | delay (ms : Nat)
  | agentStage (agent : String) (message : String)
  | remoteCall (path : String)
  | reportSuccess
  | reportError
deriving DecidableEq

/-- IssueCommandCenter.jsx `getAgentMessage`. -/
def getAgentMessage (agent : String) (issue : Issue) : String :=
  if agent = "Monitoring" then
    "Monitoring reviewed telemetry for incident " ++ issue.id
  else if agent = "Prediction" then
    "Prediction reviewed telemetry for incident " ++ issue.id
  else if agent = "Decision xApp" then
    "Decision xApp reviewed telemetry for incident " ++ issue.id
  else if agent = "Action" then
    "Action reviewed telemetry for incident " ++ issue.id
  else if agent = "Learning" then
    "Learning reviewed telemetry for incident " ++ issue.id
  else agent ++ " processed the issue"

/-- IssueCommandCenter.jsx `simulateAgentPipeline`: for each agent of
`AGENT_PIPELINE` in order, a log entry then an 800 ms delay. -/
def simulateAgentPipelineTrace (issue : Issue) : List RemEvent :=
  (agentNames.map
    (fun a => [RemEvent.agentStage a (getAgentMessage a issue),
               RemEvent.delay 800])).flatten

/-- Everything `handleAIRemediation` does before the fetch result is known:
step 0 (Analyzing Issue) with a 1000 ms delay, step 1 (Agent Pipeline) with
`simulateAgentPipeline`, step 2 (Executing Remediation) with the POST to
`/remediate`. -/
def remediationPreTrace (issue : Issue) : List RemEvent :=
  [RemEvent.stageStart "Analyzing Issue", RemEvent.delay 1000,
   RemEvent.stageStart "Agent Pipeline"]
  ++ simulateAgentPipelineTrace issue
  ++ [RemEvent.stageStart "Executing Remediation", RemEvent.remoteCall "/remediate"]

/-- Observable outcome of one `handleAIRemediation` run. -/
structure RemediationResult where
  trace : List RemEvent
  /-- The logged `isSuccess` value (`response.ok || response.status < 500`);
  `none` when the fetch threw before it was computed. -/
  isSuccessHeuristic : Option Bool
  /-- Whether the run showed the success snackbar / success chat message and
  reported the remediation as completed. -/
  reportedSuccess : Bool
  snackbarSeverity : String
  chatAppended : List ChatKind
  /-- Whether `onIssueResolved (issue.id)` was called. -/
  resolvedCalled : Bool
  fetchAttempts : Nat
  /-- Whether an exception escaped the handler. -/
  threw : Bool
deriving DecidableEq

/-- IssueCommandCenter.jsx `handleAIRemediation`, as a function of the fetch
outcome.  When the fetch resolves, the code computes `isSuccess` but only
logs it: the success snackbar, the success chat message and
`onIssueResolved` run unconditionally ("Always mark as successful for demo
purposes").  When the fetch rejects, the catch block shows an error
snackbar, appends one error chat message and does not retry. -/
def handleAIRemediation (issue : Issue) (f : FetchOutcome) : RemediationResult :=
  match f with
  | .response resp _body =>
      let isSuccess : Bool := resp.ok || decide (resp.status < 500)
      { trace := remediationPreTrace issue
          ++ [RemEvent.stageStart "Verification", RemEvent.delay 1000,
              RemEvent.reportSuccess]
        isSuccessHeuristic := some isSuccess
        reportedSuccess := true
        snackbarSeverity := "success"
        chatAppended := [ChatKind.successMsg]
        resolvedCalled := true
        fetchAttempts := 1
        threw := false }
  | .networkError _ =>
      { trace := remediationPreTrace issue ++ [RemEvent.reportError]
        isSuccessHeuristic := none
        reportedSuccess := false
        snackbarSeverity := "error"
        chatAppended := [ChatKind.errorMsg]
        resolvedCalled := false
        fetchAttempts := 1
        threw := false }

/-- Effect of one remediation attempt on the Dashboard's issue tracker:
`onIssueResolved` runs exactly when the handler called it. -/
def dashAfterRemediation (s : IssueTrackerState) (issue : Issue)
    (f : FetchOutcome) : IssueTrackerState :=
  if (handleAIRemediation issue f).resolvedCalled then onIssueResolved s issue.id
  else s

/-- The claim-relevant events of a remediation trace: stage starts and the
remote call. -/
def isKeyEvent : RemEvent → Bool
  | .stageStart _ => true
  | .remoteCall _ => true
  | _ => false

/-- Artificial-delay events of a remediation trace. -/
def isDelay : RemEvent → Bool
  | .delay _ => true
  | _ => false

/-- A concrete issue used by witnesses (the first issue `generateMockIssue`
produces, logs emptied). -/
def sampleIssue : Issue :=
  { id := "issue-mock-1", title := "High Congestion Detected",
    severity := "critical",
    description := "Automated detection identified an anomaly requiring attention.",
    affectedTowers := ["Tower-2"], impactScore := "57%", status := "Active",
    agentTrace := agentNames,
    activeAgent := "Monitoring", suggestedAction := "restart_agent",
    detailedAnalysis := "System metrics indicate elevated resource usage patterns.",
    remediationSteps := ["Identify root cause from telemetry data",
      "Execute automated remediation", "Verify system stability",
      "Update learning model"],
    agentLogs := [] }

lemma mem_addResolvedId (l : List String) (a b : String) (h : a ∈ l) :
    a ∈ addResolvedId l b := by
  unfold addResolvedId
  split
  · exact h
  · exact List.mem_append_left _ h

lemma mem_addResolvedId_self (l : List String) (a : String) :
    a ∈ addResolvedId l a := by
  unfold addResolvedId
  split
  · assumption
  · exact List.mem_append_right _ (List.mem_singleton.mpr rfl)

lemma resolvedInv_onIssueResolved (s : IssueTrackerState) (issueId : String) :
    resolvedInv issueId (onIssueResolved s issueId) := by
  refine ⟨mem_addResolvedId_self _ _, ?_⟩
  intro i hi
  have := (List.mem_filter.mp hi).2
  simpa using this

lemma resolvedInv_step (issueId : String) (s : IssueTrackerState) (e : DashEvent)
    (h : resolvedInv issueId s) : resolvedInv issueId (dashStep s e) := by
  obtain ⟨hmem, habs⟩ := h
  cases e with
  | issue data =>
      refine ⟨hmem, ?_⟩
      intro i hi
      unfold dashStep insertIssue at hi
      simp only at hi
      split at hi
      · exact habs i hi
      · split at hi
        · exact habs i hi
        · rcases List.mem_cons.mp hi with h1 | h1
          · subst h1
            intro hid
            rename_i hnot _
            exact hnot (hid ▸ hmem)
          · exact habs i h1
  | resolve rid =>
      refine ⟨mem_addResolvedId _ _ _ hmem, ?_⟩
      intro i hi
      exact habs i (List.mem_filter.mp hi).1

lemma resolvedInv_run (issueId : String) (s : IssueTrackerState)
    (evs : List DashEvent) (h : resolvedInv issueId s) :
    resolvedInv issueId (dashRun s evs) := by
  induction evs generalizing s with
  | nil => exact h
  | cons e evs ih => exact ih _ (resolvedInv_step issueId s e h)

lemma insertIssue_of_resolved (resolvedIds : List String) (prev : List Issue)
    (data : Issue) (h : data.id ∈ resolvedIds) :
    insertIssue resolvedIds prev data = prev := by
  unfold insertIssue
  rw [if_pos h]

/-- C1: once `onIssueResolved` has run for an id, the id is in the resolved
set and absent from the active list, this stays true under any further
issue/resolve events, and an `issue` event carrying that id leaves the
active list unchanged. -/
theorem C1_resolution_permanent (s : IssueTrackerState) (issueId : String)
    (evs : List DashEvent) :
    issueId ∈ (dashRun (onIssueResolved s issueId) evs).resolvedIssueIds ∧
    (∀ i ∈ (dashRun (onIssueResolved s issueId) evs).issues, i.id ≠ issueId) ∧
    ∀ data : Issue, data.id = issueId →
      (dashStep (dashRun (onIssueResolved s issueId) evs)
          (.issue data)).issues
        = (dashRun (onIssueResolved s issueId) evs).issues := by
  have h := resolvedInv_run issueId _ evs (resolvedInv_onIssueResolved s issueId)
  refine ⟨h.1, h.2, ?_⟩
  intro data hdata
  show insertIssue _ _ data = _
  exact insertIssue_of_resolved _ _ _ (hdata ▸ h.1)

/-- Witness for C1: resolve the sample issue, replay a duplicate event, and
check the conclusions at that concrete state. -/
theorem C1_witness :
    "issue-mock-1" ∈ (dashRun (onIssueResolved ⟨[sampleIssue], []⟩ "issue-mock-1")
        [DashEvent.issue sampleIssue]).resolvedIssueIds ∧
    (dashStep (dashRun (onIssueResolved ⟨[sampleIssue], []⟩ "issue-mock-1")
        [DashEvent.issue sampleIssue]) (.issue sampleIssue)).issues
      = (dashRun (onIssueResolved ⟨[sampleIssue], []⟩ "issue-mock-1")
        [DashEvent.issue sampleIssue]).issues :=
  ⟨(C1_resolution_permanent ⟨[sampleIssue], []⟩ "issue-mock-1"
      [DashEvent.issue sampleIssue]).1,
   (C1_resolution_permanent ⟨[sampleIssue], []⟩ "issue-mock-1"
      [DashEvent.issue sampleIssue]).2.2 sampleIssue rfl⟩

set_option maxRecDepth 4000 in
/-- C2 counterexample: the handlers append after `slice (-N)`, so from the
empty buffer 101 telemetry insertions leave 101 entries and 61 active-user
insertions leave 61 entries, exceeding the claimed bounds of 100 and 60. -/
theorem C2_counterexample :
    100 < ((List.range 101).foldl pushTelemetry ([] : List Nat)).length ∧
    60 < ((List.range 61).foldl pushActiveUsers ([] : List Nat)).length := by
  decide

/-- C2 amended: each insertion truncates the previous buffer to its last N
entries and then appends, so the telemetry buffer holds at most 101 entries
and the active-users buffer at most 61 after any insertion. -/
theorem C2_buffer_bounds {α β : Type} (prev : List α) (d : α)
    (prev2 : List β) (d2 : β) :
    (pushTelemetry prev d).length = min prev.length 100 + 1 ∧
    (pushTelemetry prev d).length ≤ 101 ∧
    (pushActiveUsers prev2 d2).length = min prev2.length 60 + 1 ∧
    (pushActiveUsers prev2 d2).length ≤ 61 := by
  simp only [pushTelemetry, pushActiveUsers, sliceLast, List.length_append,
    List.length_drop, List.length_cons, List.length_nil]
  omega

/-- C3 counterexample: for a 500 response the logged heuristic is `false`,
yet the run still reports success and marks the issue resolved — the code
never branches on `isSuccess`. -/
theorem C3_counterexample :
    (handleAIRemediation sampleIssue
        (.response ⟨false, 500⟩ none)).isSuccessHeuristic = some false ∧
    (handleAIRemediation sampleIssue
        (.response ⟨false, 500⟩ none)).reportedSuccess = true ∧
    (handleAIRemediation sampleIssue
        (.response ⟨false, 500⟩ none)).resolvedCalled = true :=
  ⟨rfl, rfl, rfl⟩

/-- C3 amended: the handler computes the non-5xx heuristic
`response.ok || response.status < 500` but only logs it; every fetch that
resolves — 5xx included — is reported as a successful remediation and the
issue is marked resolved. -/
theorem C3_success_unconditional (issue : Issue) (resp : HttpResponse)
    (body : Option RemediationBody) :
    (handleAIRemediation issue (.response resp body)).isSuccessHeuristic
        = some (resp.ok || decide (resp.status < 500)) ∧
    (handleAIRemediation issue (.response resp body)).reportedSuccess = true ∧
    (handleAIRemediation issue (.response resp body)).resolvedCalled = true :=
  ⟨rfl, rfl, rfl⟩

/-- C5: a network error during the `/remediate` fetch is caught (nothing
propagates), appends exactly one chat-style error message, is not retried,
and leaves the issue tracker unchanged. -/
theorem C5_network_error_caught (issue : Issue) (msg : String)
    (s : IssueTrackerState) :
    (handleAIRemediation issue (.networkError msg)).threw = false ∧
    (handleAIRemediation issue (.networkError msg)).chatAppended
        = [ChatKind.errorMsg] ∧
    (handleAIRemediation issue (.networkError msg)).fetchAttempts = 1 ∧
    (handleAIRemediation issue (.networkError msg)).resolvedCalled = false ∧
    dashAfterRemediation s issue (.networkError msg) = s :=
  ⟨rfl, rfl, rfl, rfl, rfl⟩

/-- C6: issue insertion is idempotent — an id already resolved or already
active is rejected and the list returned unchanged; otherwise the issue is
added exactly once. -/
theorem C6_insert_idempotent (resolvedIds : List String) (prev : List Issue)
    (data : Issue) :
    (data.id ∈ resolvedIds → insertIssue resolvedIds prev data = prev) ∧
    (prev.any (fun i => i.id == data.id) = true →
      insertIssue resolvedIds prev data = prev) ∧
    (data.id ∉ resolvedIds → prev.any (fun i => i.id == data.id) = false →
      insertIssue resolvedIds prev data = data :: prev ∧
      ((insertIssue resolvedIds prev data).filter
          (fun i => i.id == data.id)).length = 1) := by
  refine ⟨insertIssue_of_resolved resolvedIds prev data, ?_, ?_⟩
  · intro hdup
    unfold insertIssue
    by_cases hres : data.id ∈ resolvedIds
    · rw [if_pos hres]
    · rw [if_neg hres, if_pos hdup]
  · intro hres hdup
    have heq : insertIssue resolvedIds prev data = data :: prev := by
      unfold insertIssue
      rw [if_neg hres, if_neg (by simp [hdup])]
    refine ⟨heq, ?_⟩
    rw [heq]
    have hnone : ∀ i ∈ prev, ¬ (i.id == data.id) = true := by
      intro i hi htrue
      have : prev.any (fun i => i.id == data.id) = true :=
        List.any_eq_true.mpr ⟨i, hi, htrue⟩
      rw [this] at hdup
      exact absurd hdup (by decide)
    simp [List.filter_cons, List.filter_eq_nil_iff.mpr hnone]

/-- Witness for C6: both the rejection branch (id already resolved) and the
insertion branch at concrete inputs. -/
theorem C6_witness :
    insertIssue ["issue-mock-1"] [] sampleIssue = [] ∧
    insertIssue [] [] sampleIssue = [sampleIssue] :=
  ⟨(C6_insert_idempotent ["issue-mock-1"] [] sampleIssue).1 (by decide),
   ((C6_insert_idempotent [] [] sampleIssue).2.2 (by decide) rfl).1⟩

/-- C7: on the success path the four stages run in the fixed order
analyze → pipeline → execute → verify, the `/remediate` call falls between
the execute stage start and the verification stage, and each stage carries
its artificial delay. -/
theorem C7_stage_order (issue : Issue) (resp : HttpResponse)
    (body : Option RemediationBody) :
    (handleAIRemediation issue (.response resp body)).trace.filter isKeyEvent
      = [RemEvent.stageStart "Analyzing Issue",
         RemEvent.stageStart "Agent Pipeline",
         RemEvent.stageStart "Executing Remediation",
         RemEvent.remoteCall "/remediate",
         RemEvent.stageStart "Verification"] ∧
    (handleAIRemediation issue (.response resp body)).trace.filter isDelay
      = [RemEvent.delay 1000, RemEvent.delay 800, RemEvent.delay 800,
         RemEvent.delay 800, RemEvent.delay 800, RemEvent.delay 800,
         RemEvent.delay 1000] :=
  ⟨rfl, rfl⟩

/-- C8: on `connect_error` the client switches to mock data, the synthetic
stream is running, no live connection exists, and the caller's `onConnect`
callback is still invoked. -/
theorem C8_connect_error_fallback (s : WsState) :
    (wsStep s .connectError).connected = false ∧
    (wsStep s .connectError).useMockData = true ∧
    0 < (wsStep s .connectError).mockStreams ∧
    (wsStep s .connectError).onConnectCalls = s.onConnectCalls + 1 := by
  by_cases h : s.mockStreams = 0
  · simp [wsStep, startMockDataStream, h]
  · simp [wsStep, startMockDataStream, h, Nat.pos_of_ne_zero h]

lemma wsStep_mock_inv (s : WsState) (e : WsEvent) (h : s.mockStreams ≤ 1) :
    (wsStep s e).mockStreams
      = (if (wsStep s e).connected then 0 else 1) := by
  cases e <;> by_cases h0 : s.mockStreams = 0 <;>
      simp [wsStep, startMockDataStream, h0] <;> omega

lemma ws_run_mock_inv (evs : List WsEvent) (s : WsState)
    (h : s.mockStreams ≤ 1) :
    (evs.foldl wsStep s).mockStreams ≤ 1 ∧
    (evs ≠ [] → (evs.foldl wsStep s).mockStreams
        = (if (evs.foldl wsStep s).connected then 0 else 1)) := by
  induction evs generalizing s with
  | nil => exact ⟨h, fun hne => absurd rfl hne⟩
  | cons e evs ih =>
      have h1 : (wsStep s e).mockStreams ≤ 1 := by
        rw [wsStep_mock_inv s e h]
        split <;> omega
      have h2 := ih (wsStep s e) h1
      simp only [List.foldl_cons]
      refine ⟨h2.1, fun _ => ?_⟩
      cases evs with
      | nil => simpa using wsStep_mock_inv s e h
      | cons e2 evs2 => exact h2.2 (by simp)

/-- C4 counterexample: the initial state of the streaming client (reachable
with zero connection events) has no live connection and no synthetic
generator running, so the claimed iff fails there. -/
theorem C4_counterexample :
    ¬ ((0 < (([] : List WsEvent).foldl wsStep wsInit).mockStreams) ↔
        (([] : List WsEvent).foldl wsStep wsInit).connected = false) := by
  decide

/-- C4 amended: in every state reached after at least one connection event
(connect, disconnect or connect_error), the synthetic generator is running
iff no live connection is established; and at most one generator is ever
live, since `startMockDataStream` returns early when one is running. -/
theorem C4_mock_iff_disconnected (evs : List WsEvent) (h : evs ≠ []) :
    ((0 < (evs.foldl wsStep wsInit).mockStreams) ↔
        (evs.foldl wsStep wsInit).connected = false) ∧
    (evs.foldl wsStep wsInit).mockStreams ≤ 1 := by
  have hrun := ws_run_mock_inv evs wsInit (by simp [wsInit])
  refine ⟨?_, hrun.1⟩
  rw [hrun.2 h]
  cases hcon : (evs.foldl wsStep wsInit).connected <;> simp [hcon]

/-- Witness for C4 at the one-event trace of a connection failure. -/
theorem C4_witness :
    ((0 < (([WsEvent.connectError]).foldl wsStep wsInit).mockStreams) ↔
        (([WsEvent.connectError]).foldl wsStep wsInit).connected = false) ∧
    (([WsEvent.connectError]).foldl wsStep wsInit).mockStreams ≤ 1 :=
  C4_mock_iff_disconnected [WsEvent.connectError] (by decide)

lemma generateMockIssue_lt (now : String) (c : Nat)
    (h : ¬ MAX_MOCK_ISSUES ≤ c) :
    ∃ iss : Issue, (generateMockIssue now c).1 = some iss := by
  unfold generateMockIssue
  rw [if_neg h]
  exact ⟨_, rfl⟩

lemma runMockIssueCalls_eq (now : String) (k : Nat) :
    runMockIssueCalls now k = min k MAX_MOCK_ISSUES := by
  induction k with
  | zero => simp [runMockIssueCalls]
  | succ k ih =>
      rw [runMockIssueCalls, ih]
      unfold generateMockIssue
      simp only [MAX_MOCK_ISSUES]
      by_cases h : 5 ≤ min k 5
      · rw [if_pos h]
        show min k 5 = min (k + 1) 5
        omega
      · rw [if_neg h]
        show min k 5 + 1 = min (k + 1) 5
        omega

/-- C9: starting from a fresh module, the i-th call of `generateMockIssue`
(1 ≤ i ≤ 5) yields an issue with the stable id `issue-mock-i`, and every
call after the fifth yields null. -/
theorem C9_mock_issue_limit (now : String) (i : Nat) :
    (1 ≤ i → i ≤ MAX_MOCK_ISSUES →
      ∃ iss : Issue, nthMockIssueCall now i = some iss ∧
        iss.id = "issue-mock-" ++ toString i) ∧
    (MAX_MOCK_ISSUES < i → nthMockIssueCall now i = none) := by
  constructor
  · intro h1 h5
    have h5' : i ≤ 5 := h5
    have hc : runMockIssueCalls now (i - 1) = i - 1 := by
      rw [runMockIssueCalls_eq]
      show min (i - 1) 5 = i - 1
      omega
    have hlt : ¬ MAX_MOCK_ISSUES ≤ i - 1 := by
      show ¬ 5 ≤ i - 1
      omega
    unfold nthMockIssueCall
    rw [hc]
    unfold generateMockIssue
    rw [if_neg hlt]
    refine ⟨_, rfl, ?_⟩
    have hsub : i - 1 + 1 = i := by omega
    simp only [hsub]
  · intro h5
    have h5' : 5 < i := h5
    have hc : runMockIssueCalls now (i - 1) = MAX_MOCK_ISSUES := by
      rw [runMockIssueCalls_eq]
      show min (i - 1) 5 = 5
      omega
    unfold nthMockIssueCall
    rw [hc]
    simp [generateMockIssue]

/-- Witness for C9: the second call yields `issue-mock-2`, the seventh
yields null. -/
theorem C9_witness :
    (∃ iss : Issue, nthMockIssueCall "2026-01-01" 2 = some iss ∧
      iss.id = "issue-mock-" ++ toString 2) ∧
    nthMockIssueCall "2026-01-01" 7 = none :=
  ⟨(C9_mock_issue_limit "2026-01-01" 2).1 (by decide) (by decide),
   (C9_mock_issue_limit "2026-01-01" 7).2 (by decide)⟩

/-- C10: the two synthetic issue emitters differ at the null edge case —
`WebSocketService.startMockDataStream` never hands a null payload to the
`issue` subscribers, while the `MockWebSocketService` issue interval emits
the generator result unchecked, so at or past the 5-issue limit it delivers
null to every subscriber (and a real issue below the limit). -/
theorem C10_null_edge (now : String) (c : Nat) :
    ((wsIssueTick now c).1 = none ∨
      ∃ iss : Issue, (wsIssueTick now c).1 = some (some iss)) ∧
    (MAX_MOCK_ISSUES ≤ c → (mockServiceIssueTick now c).1 = some none) ∧
    (c < MAX_MOCK_ISSUES →
      ∃ iss : Issue, (mockServiceIssueTick now c).1 = some (some iss)) := by
  by_cases h : MAX_MOCK_ISSUES ≤ c
  · refine ⟨Or.inl ?_, fun _ => ?_, fun hlt => absurd h (by omega)⟩
    · simp [wsIssueTick, generateMockIssue, h]
    · simp [mockServiceIssueTick, generateMockIssue, h]
  · obtain ⟨iss, hiss⟩ := generateMockIssue_lt now c h
    refine ⟨Or.inr ?_, fun hge => absurd hge h, fun _ => ?_⟩
    · exact ⟨iss, by simp [wsIssueTick, hiss]⟩
    · exact ⟨iss, by simp [mockServiceIssueTick, hiss]⟩

/-- Witness for C10: at the limit the mock service delivers null, below it a
real issue. -/
theorem C10_witness :
    (mockServiceIssueTick "2026-01-01" 5).1 = some none ∧
    ∃ iss : Issue, (mockServiceIssueTick "2026-01-01" 0).1 = some (some iss) :=
  ⟨(C10_null_edge "2026-01-01" 5).2.1 (by decide),
   (C10_null_edge "2026-01-01" 0).2.2 (by decide)⟩

end Trace
